import Mathlib

/-!
Verification of the MobileBackup2 protocol client (mobilebackup2.c).

The development shallowly embeds the C source. Plist values become an
inductive tree; the external collaborators (the device_link transport layer
and the raw idevice connection) become oracle parameters: a function giving
the transport's result for each structured send, a pair giving the result of
the one structured receive, and a trace of per-call progress counts for the
raw byte primitives. Machine integers are modelled as Nat/Int with explicit
reduction mod 2^32 or 2^64 where the C performs unsigned arithmetic.
-/

set_option autoImplicit false

namespace MobileBackup2

/-- Node types of the structured-data library (plist_type in libplist);
only the constructors this client inspects are distinguished. -/
inductive NodeType where
  | dict
  | array
  | string
  | uint
  | real
  | boolean
  | data
  deriving DecidableEq

/-- Structured plist values (external structured-data library's value
universe): nested dicts/arrays over scalar leaves. Dict entries are an
ordered association list, as in the underlying node tree. -/
inductive PlistValue where
  | string (s : String)
  | uint (v : Nat)
  | real (v : Rat)
  | boolean (b : Bool)
  | data (bytes : List Nat)
  | dict (entries : List (String × PlistValue))
  | array (items : List PlistValue)

/-- plist_get_node_type: the type tag of a node. -/
def plist_get_node_type : PlistValue → NodeType
  | .string _ => .string
  | .uint _ => .uint
  | .real _ => .real
  | .boolean _ => .boolean
  | .data _ => .data
  | .dict _ => .dict
  | .array _ => .array

/-- Association-list lookup backing plist_dict_get_item: first entry whose
key matches. -/
def dict_get : List (String × PlistValue) → String → Option PlistValue
  | [], _ => none
  | (k, v) :: rest, key => if k = key then some v else dict_get rest key

/-- plist_dict_get_item: look a key up in a dict node; NULL (none) when the
node is not a dict or the key is absent. -/
def plist_dict_get_item : PlistValue → String → Option PlistValue
  | .dict es, key => dict_get es key
  | _, _ => none

/-- Association-list update backing plist_dict_insert_item: overwrite the
existing entry for the key in place, else append at the end. -/
def dict_set : List (String × PlistValue) → String → PlistValue → List (String × PlistValue)
  | [], key, item => [(key, item)]
  | (k, v) :: rest, key, item =>
    if k = key then (key, item) :: rest else (k, v) :: dict_set rest key item

/-- plist_dict_insert_item: set a key of a dict node, overwriting any prior
value at that key (spec section 3 invariant); other node types unchanged. -/
def plist_dict_insert_item : PlistValue → String → PlistValue → PlistValue
  | .dict es, key, item => .dict (dict_set es key item)
  | p, _, _ => p

/-- plist_copy: a deep copy. In the value semantics of this embedding a
structural copy denotes the same value, so the copy is the identity; what
matters for the claims is that the source builds envelopes from the copy,
never destructively from the caller's node. -/
def plist_copy (p : PlistValue) : PlistValue := p

/-- plist_get_string_val: yields the payload of a string node and leaves the
out-parameter NULL (none) for any other node type. -/
def plist_get_string_val : PlistValue → Option String
  | .string s => some s
  | _ => none

/-- plist_get_uint_val: payload of a uint node, 0 otherwise (the C out
parameter was initialised to 0 and is only written for uint nodes). -/
def plist_get_uint_val : PlistValue → Nat
  | .uint v => v
  | _ => 0

/-- Error codes of the external device_link_service layer; unknownOther
stands for any value outside the named set (exercises the default branch of
the translation switch). -/
inductive DLError where
  | success
  | invalidArg
  | plistError
  | muxError
  | badVersion
  | unknownOther
  deriving DecidableEq

/-- mobilebackup2_error_t result codes. -/
inductive MBError where
  | success
  | invalidArg
  | plistError
  | muxError
  | badVersion
  | replyNotOk
  | noCommonVersion
  | unknownError
  deriving DecidableEq

/-- mobilebackup2_error: translate a device_link_service error to a
mobilebackup2 error, defaulting to MOBILEBACKUP2_E_UNKNOWN_ERROR. -/
def mobilebackup2_error : DLError → MBError
  | .success => .success
  | .invalidArg => .invalidArg
  | .plistError => .plistError
  | .muxError => .muxError
  | .badVersion => .badVersion
  | .unknownOther => .unknownError

/-- Spec name InvalidArgument: malformed or missing caller input. -/
def InvalidArgument : MBError := .invalidArg

/-- Spec name ProtocolError: peer sent a structurally invalid or rejected
message (MOBILEBACKUP2_E_PLIST_ERROR in the source, per spec section 4.2:
missing message-name field fails with ProtocolError). -/
def ProtocolError : MBError := .plistError

/-- Spec name ReplyMismatch: peer responded with an unexpected message name
(MOBILEBACKUP2_E_REPLY_NOT_OK in the source, per spec section 8: a reply
named Goodbye fails with ReplyMismatch). -/
def ReplyMismatch : MBError := .replyNotOk

/-- Spec name TransportError: adapter-level communication failure
(MOBILEBACKUP2_E_MUX_ERROR in the source). -/
def TransportError : MBError := .muxError

/-- The client record (struct mobilebackup2_client_private): it owns an
optional device_link handle in the parent field; none models a NULL parent. -/
structure MBClientPriv where
  parent : Option Unit

/-- A possibly-NULL mobilebackup2_client_t pointer. -/
abbrev MBClient := Option MBClientPriv

/-- Result of internal_mobilebackup2_send_message: the returned error and
the plist handed to device_link_service_send_process_message (none when no
send was attempted). -/
structure SendMessageResult where
  err : MBError
  sentProcessMessage : Option PlistValue

/-- internal_mobilebackup2_send_message. The send oracle gives the
device_link layer's result for the plist it is handed. Checks client,
parent and the message/options arguments; wraps options (starting from a
copy, or a fresh dict) with MessageName = message when message is present,
otherwise sends options verbatim. -/
def internal_mobilebackup2_send_message (send : PlistValue → DLError)
    (client : MBClient) (message : Option String) (options : Option PlistValue) :
    SendMessageResult :=
  match client with
  | none => ⟨.invalidArg, none⟩
  | some c =>
    if c.parent.isNone then ⟨.invalidArg, none⟩
    else if message.isNone && options.isNone then ⟨.invalidArg, none⟩
    else if options.any (fun o => plist_get_node_type o != NodeType.dict) then
      ⟨.invalidArg, none⟩
    else
      match message with
      | some m =>
        let dict :=
          match options with
          | some o => plist_copy o
          | none => .dict []
        let dict2 := plist_dict_insert_item dict "MessageName" (.string m)
        ⟨mobilebackup2_error (send dict2), some dict2⟩
      | none =>
        let opts := options.getD (.dict [])
        ⟨mobilebackup2_error (send opts), some opts⟩

/-- internal_mobilebackup2_receive_message. The receive oracle is the result
code of device_link_service_receive_process_message together with the plist
it would deliver on success. Returns the mobilebackup2 error and the value
stored in *result (none whenever the source leaves *result NULL). -/
def internal_mobilebackup2_receive_message (recvErr : DLError) (recvPlist : PlistValue)
    (client : MBClient) (message : Option String) : MBError × Option PlistValue :=
  match client with
  | none => (.invalidArg, none)
  | some c =>
    if c.parent.isNone then (.invalidArg, none)
    else
      match message with
      | none => (.invalidArg, none)
      | some msg =>
        let err := mobilebackup2_error recvErr
        if err != .success then (err, none)
        else
          let dict := recvPlist
          match plist_dict_get_item dict "MessageName" with
          | none => (.plistError, none)
          | some node =>
            match plist_get_string_val node with
            | some str =>
              if str = msg then (.success, some dict) else (.replyNotOk, some dict)
            | none => (.replyNotOk, some dict)

/-- mobilebackup2_receive_message: passthrough to the device_link layer's
generic receive; the oracle provides that layer's result directly. -/
def mobilebackup2_receive_message (recvResult : DLError × Option PlistValue × Option String)
    (client : MBClientPriv) : MBError × Option PlistValue × Option String :=
  match client.parent with
  | _ => (mobilebackup2_error recvResult.1, recvResult.2.1, recvResult.2.2)

/-- The shared do-while retry loop of mobilebackup2_send_raw and
mobilebackup2_receive_raw (the two loops in the source are line-for-line
identical): the trace lists the signed progress count each successive
idevice_connection call reports (an exhausted trace reads as 0 progress);
accumulate while progress is positive and the running uint32 total is still
below length, break on the first zero-or-negative report. -/
def transfer_loop (length : Nat) : List Int → Nat → Nat
  | [], acc => acc
  | p :: rest, acc =>
    if p ≤ 0 then acc
    else
      let acc2 := (acc + p.toNat) % 4294967296
      if acc2 < length then transfer_loop length rest acc2 else acc2

/-- mobilebackup2_send_raw. Returns the error code and the value written to
*bytes (none on the invalid-argument path, where the source returns before
touching *bytes). -/
def mobilebackup2_send_raw (trace : List Int) (client : MBClient) (length : Nat) :
    MBError × Option Nat :=
  match client with
  | none => (.invalidArg, none)
  | some c =>
    if c.parent.isNone then (.invalidArg, none)
    else
      let sent := transfer_loop length trace 0
      if 0 < sent then (.success, some sent)
      else (.muxError, some 0)

/-- mobilebackup2_receive_raw. Identical loop; the result test is the
three-way chain of the source (received greater than zero, equal to zero,
otherwise), whose last branch is unreachable for an unsigned counter. -/
def mobilebackup2_receive_raw (trace : List Int) (client : MBClient) (length : Nat) :
    MBError × Option Nat :=
  match client with
  | none => (.invalidArg, none)
  | some c =>
    if c.parent.isNone then (.invalidArg, none)
    else
      let received := transfer_loop length trace 0
      if 0 < received then (.success, some received)
      else if received = 0 then (.success, some 0)
      else (.muxError, some 0)

/-- The Hello body mobilebackup2_version_exchange builds before wrapping:
SupportedProtocolVersions = [2.0, 2.1]. -/
def helloBody : PlistValue :=
  .dict [("SupportedProtocolVersions", .array [.real 2, .real (21 / 10)])]

/-- mobilebackup2_version_exchange. Sends the Hello envelope, receives the
reply through internal_mobilebackup2_receive_message with expected name
Response, then validates ErrorCode (uint, zero) and ProtocolVersion (real).
The oracles fix the transport's behaviour: send result per plist, plus the
result code and delivered plist of the one structured receive. -/
def mobilebackup2_version_exchange (send : PlistValue → DLError)
    (recvErr : DLError) (recvPlist : PlistValue) (client : MBClient) : MBError :=
  match client with
  | none => .invalidArg
  | some c =>
    if c.parent.isNone then .invalidArg
    else
      let sendRes := internal_mobilebackup2_send_message send (some c) (some "Hello") (some helloBody)
      if sendRes.err != .success then sendRes.err
      else
        let recvRes := internal_mobilebackup2_receive_message recvErr recvPlist (some c) (some "Response")
        if recvRes.1 != .success then recvRes.1
        else
          let dict := recvRes.2.getD (.dict [])
          match plist_dict_get_item dict "ErrorCode" with
          | none => .plistError
          | some node =>
            if plist_get_node_type node != NodeType.uint then .plistError
            else if plist_get_uint_val node != 0 then .replyNotOk
            else
              match plist_dict_get_item dict "ProtocolVersion" with
              | none => .plistError
              | some node2 =>
                if plist_get_node_type node2 != NodeType.real then .plistError
                else .success

/-- mobilebackup2_client_free. The oracle is the device_link layer's result
for device_link_service_client_free. Returns the error together with a flag
recording whether the parent adapter handle was disconnected and freed (true
exactly when the client had a non-NULL parent); the local record itself is
freed unconditionally once the client is non-NULL. -/
def mobilebackup2_client_free (freeErr : DLError) (client : MBClient) : MBError × Bool :=
  match client with
  | none => (.invalidArg, false)
  | some c =>
    match c.parent with
    | some _ => (mobilebackup2_error freeErr, true)
    | none => (.success, false)

/-- Observable outcome of mobilebackup2_client_new: the returned error, the
final value of the caller's *client, and resource bookkeeping — whether a
device_link adapter handle was acquired, whether it was released again, and
whether the locally allocated client record was freed. -/
structure ClientNewResult where
  ret : MBError
  clientOut : Option MBClientPriv
  adapterAcquired : Bool
  adapterReleased : Bool
  clientRecordFreed : Bool

/-- mobilebackup2_client_new. Oracles: the device_link results of
device_link_service_client_new, device_link_service_version_exchange and
device_link_service_client_free (the latter only consulted on the cleanup
path). Validates arguments, opens the adapter, allocs the record with
parent set to the new handle, runs the handshake, and on handshake failure
routes cleanup through mobilebackup2_client_free before returning the
mapped error; *client is written only on full success. -/
def mobilebackup2_client_new (openErr handshakeErr freeErr : DLError)
    (deviceValid : Bool) (port : Nat) (clientPtrValid : Bool)
    (clientIn : Option MBClientPriv) : ClientNewResult :=
  if !deviceValid || port == 0 || !clientPtrValid || clientIn.isSome then
    ⟨.invalidArg, clientIn, false, false, false⟩
  else
    let ret := mobilebackup2_error openErr
    if ret != .success then ⟨ret, clientIn, false, false, false⟩
    else
      let client_loc : MBClientPriv := ⟨some ()⟩
      let ret2 := mobilebackup2_error handshakeErr
      if ret2 != .success then
        let fr := mobilebackup2_client_free freeErr (some client_loc)
        ⟨ret2, clientIn, true, fr.2, true⟩
      else
        ⟨ret2, some client_loc, true, false, false⟩

/-- mobilebackup2_send_request: body with TargetIdentifier, optional
SourceIdentifier, optional copied Options, wrapped by
internal_mobilebackup2_send_message with the request verb. -/
def mobilebackup2_send_request (send : PlistValue → DLError) (client : MBClient)
    (request : Option String) (target_identifier : Option String)
    (source_identifier : Option String) (options : Option PlistValue) :
    SendMessageResult :=
  match client with
  | none => ⟨.invalidArg, none⟩
  | some c =>
    if c.parent.isNone then ⟨.invalidArg, none⟩
    else
      match request, target_identifier with
      | some req, some tid =>
        let dict0 : List (String × PlistValue) := [("TargetIdentifier", .string tid)]
        let dict1 :=
          match source_identifier with
          | some sid => dict_set dict0 "SourceIdentifier" (.string sid)
          | none => dict0
        let dict2 :=
          match options with
          | some o => dict_set dict1 "Options" (plist_copy o)
          | none => dict1
        internal_mobilebackup2_send_message send (some c) (some req) (some (.dict dict2))
      | _, _ => ⟨.invalidArg, none⟩

/-- plist_new_uint applied to a C int status code: the int is converted to
uint64_t, i.e. reduced mod 2^64. -/
def plist_new_uint_of_int (v : Int) : PlistValue :=
  .uint (v % 18446744073709551616).toNat

/-- The sentinel standing in for absent optional fields of the status
response tuple. -/
def emptyParameterString : String := "___EmptyParameterString___"

/-- mobilebackup2_send_status_response. Builds the fixed 4-element array
(tag, status code, status message or sentinel, copied status detail or
sentinel) and hands it to device_link_service_send; returns the mapped
error and the array that was sent (none when no send was attempted). -/
def mobilebackup2_send_status_response (send : PlistValue → DLError)
    (client : MBClient) (status_code : Int)
    (status1 : Option String) (status2 : Option PlistValue) :
    MBError × Option PlistValue :=
  match client with
  | none => (.invalidArg, none)
  | some c =>
    if c.parent.isNone then (.invalidArg, none)
    else
      let arr : PlistValue := .array
        [ .string "DLMessageStatusResponse",
          plist_new_uint_of_int status_code,
          (match status1 with
           | some s => .string s
           | none => .string emptyParameterString),
          (match status2 with
           | some p => plist_copy p
           | none => .string emptyParameterString) ]
      (mobilebackup2_error (send arr), some arr)

/-- Concrete oracle: a transport whose structured sends always succeed. -/
def sendAlwaysOk : PlistValue → DLError := fun _ => DLError.success

/-- A connected client record: non-NULL with a live device_link parent. -/
def validClient : MBClientPriv := ⟨some ()⟩

theorem dict_get_set_same (es : List (String × PlistValue)) (k : String) (v : PlistValue) :
    dict_get (dict_set es k v) k = some v := by
  induction es with
  | nil => simp [dict_set, dict_get]
  | cons hd tl ih =>
    obtain ⟨k0, v0⟩ := hd
    by_cases h : k0 = k
    · simp [dict_set, dict_get, h]
    · simp [dict_set, dict_get, h, ih]

theorem dict_get_set_other (es : List (String × PlistValue)) (k k2 : String) (v : PlistValue)
    (hne : k2 ≠ k) : dict_get (dict_set es k v) k2 = dict_get es k2 := by
  induction es with
  | nil => simp [dict_set, dict_get, Ne.symm hne]
  | cons hd tl ih =>
    obtain ⟨k0, v0⟩ := hd
    by_cases h : k0 = k
    · subst h
      simp [dict_set, dict_get, Ne.symm hne]
    · simp [dict_set, dict_get, h, ih]

theorem plist_node_type_dict (o : PlistValue) (h : plist_get_node_type o = NodeType.dict) :
    ∃ es, o = .dict es := by
  cases o <;> first
    | exact ⟨_, rfl⟩
    | simp [plist_get_node_type] at h

theorem mobilebackup2_error_success_iff (e : DLError) :
    mobilebackup2_error e = MBError.success ↔ e = DLError.success := by
  cases e <;> simp [mobilebackup2_error]

/-- C4: for every valid connected client, non-absent message name, and
options absent or map-shaped, the envelope handed to the transport is built
from a copy of options and contains every key/value pair of options plus
MessageName set to the message name, overwriting any prior value at that
key; the caller's options value is untouched (the construction consumes
plist_copy options, and the copy equals the original value). -/
theorem C4_build_envelope (send : PlistValue → DLError) (c : MBClientPriv)
    (hc : c.parent = some ()) (m : String) (options : Option PlistValue)
    (hopt : ∀ o, options = some o → plist_get_node_type o = NodeType.dict) :
    ∃ env,
      (internal_mobilebackup2_send_message send (some c) (some m) options).sentProcessMessage
        = some env ∧
      env = plist_dict_insert_item (plist_copy (options.getD (.dict []))) "MessageName" (.string m) ∧
      plist_dict_get_item env "MessageName" = some (.string m) ∧
      (∀ k, k ≠ "MessageName" →
        plist_dict_get_item env k = plist_dict_get_item (options.getD (.dict [])) k) ∧
      plist_copy (options.getD (.dict [])) = options.getD (.dict []) := by
  cases options with
  | none =>
    refine ⟨.dict [("MessageName", .string m)], ?_, rfl, rfl, ?_, rfl⟩
    · simp [internal_mobilebackup2_send_message, hc, plist_copy, plist_dict_insert_item, dict_set]
    · intro k hk
      simp [plist_dict_get_item, dict_get, Ne.symm hk]
  | some o =>
    obtain ⟨es, rfl⟩ := plist_node_type_dict o (hopt o rfl)
    refine ⟨.dict (dict_set es "MessageName" (.string m)), ?_, rfl, ?_, ?_, rfl⟩
    · simp [internal_mobilebackup2_send_message, hc, plist_copy, plist_dict_insert_item,
        plist_get_node_type, Option.any]
    · simp [plist_dict_get_item, dict_get_set_same]
    · intro k hk
      simp [plist_dict_get_item, dict_get_set_other es "MessageName" k (.string m) hk]

/-- C4 witness: a concrete map-shaped options value with one key, wrapped
with message name Backup. -/
theorem C4_build_envelope_witness :
    ∃ env,
      (internal_mobilebackup2_send_message sendAlwaysOk (some validClient) (some "Backup")
        (some (.dict [("A", .uint 7)]))).sentProcessMessage = some env ∧
      plist_dict_get_item env "MessageName" = some (.string "Backup") ∧
      plist_dict_get_item env "A" = some (.uint 7) := by
  obtain ⟨env, h1, _, h3, h4, _⟩ :=
    C4_build_envelope sendAlwaysOk validClient rfl "Backup" (some (.dict [("A", .uint 7)]))
      (by intro o h; injection h with h2; subst h2; rfl)
  refine ⟨env, h1, h3, ?_⟩
  rw [h4 "A" (by decide)]
  rfl

/-- C7: with a valid connected client, build_envelope fails with
InvalidArgument without handing anything to the transport exactly when both
message and options are absent, or options is present but not a dict. -/
theorem C7_invalid_argument (send : PlistValue → DLError) (c : MBClientPriv)
    (hc : c.parent = some ()) (message : Option String) (options : Option PlistValue) :
    ((internal_mobilebackup2_send_message send (some c) message options).err = InvalidArgument ∧
     (internal_mobilebackup2_send_message send (some c) message options).sentProcessMessage = none)
    ↔ ((message = none ∧ options = none) ∨
       (∃ o, options = some o ∧ plist_get_node_type o ≠ NodeType.dict)) := by
  cases message with
  | none =>
    cases options with
    | none => simp [internal_mobilebackup2_send_message, hc, InvalidArgument]
    | some o =>
      by_cases h : plist_get_node_type o = NodeType.dict
      · simp [internal_mobilebackup2_send_message, hc, h, InvalidArgument, Option.any]
      · simp [internal_mobilebackup2_send_message, hc, h, InvalidArgument, Option.any]
  | some m =>
    cases options with
    | none => simp [internal_mobilebackup2_send_message, hc, InvalidArgument]
    | some o =>
      by_cases h : plist_get_node_type o = NodeType.dict
      · simp [internal_mobilebackup2_send_message, hc, h, InvalidArgument, Option.any]
      · simp [internal_mobilebackup2_send_message, hc, h, InvalidArgument, Option.any]

/-- C7 witness: both message and options absent fails with InvalidArgument
and nothing reaches the transport. -/
theorem C7_invalid_argument_witness :
    (internal_mobilebackup2_send_message sendAlwaysOk (some validClient) none none).err
      = InvalidArgument ∧
    (internal_mobilebackup2_send_message sendAlwaysOk (some validClient) none none).sentProcessMessage
      = none :=
  (C7_invalid_argument sendAlwaysOk validClient rfl none none).mpr (Or.inl ⟨rfl, rfl⟩)

/-- C5: for every valid connected client and status code in uint64 range,
send_status_response hands the transport exactly the ordered 4-element array
of the tag, the code, the status message or the sentinel, and the copied
status detail or the sentinel. -/
theorem C5_status_response (send : PlistValue → DLError) (c : MBClientPriv)
    (hc : c.parent = some ()) (status_code : Int) (h0 : 0 ≤ status_code)
    (h1 : status_code < 18446744073709551616)
    (status1 : Option String) (status2 : Option PlistValue) :
    (mobilebackup2_send_status_response send (some c) status_code status1 status2).2 =
      some (.array
        [ .string "DLMessageStatusResponse",
          .uint status_code.toNat,
          status1.elim (.string emptyParameterString) PlistValue.string,
          status2.elim (.string emptyParameterString) plist_copy ]) := by
  have hmod : status_code % 18446744073709551616 = status_code :=
    Int.emod_eq_of_lt h0 h1
  cases status1 <;> cases status2 <;>
    simp [mobilebackup2_send_status_response, hc, plist_new_uint_of_int, hmod, Option.elim]

/-- C5 witness: status code 0 with both optional fields absent produces
exactly the tuple of the tag, 0 and the two sentinels. -/
theorem C5_status_response_witness :
    (mobilebackup2_send_status_response sendAlwaysOk (some validClient) 0 none none).2 =
      some (.array
        [ .string "DLMessageStatusResponse",
          .uint 0,
          .string emptyParameterString,
          .string emptyParameterString ]) := by
  have h := C5_status_response sendAlwaysOk validClient rfl 0 (by decide) (by decide) none none
  exact h

theorem transfer_loop_nonpos (length acc : Nat) (p : Int) (rest : List Int) (h : p ≤ 0) :
    transfer_loop length (p :: rest) acc = acc := by
  simp [transfer_loop, h]

theorem transfer_loop_step (length acc : Nat) (p : Int) (rest : List Int) (h : 0 < p) :
    transfer_loop length (p :: rest) acc =
      (if (acc + p.toNat) % 4294967296 < length
       then transfer_loop length rest ((acc + p.toNat) % 4294967296)
       else (acc + p.toNat) % 4294967296) := by
  have h2 : ¬ p ≤ 0 := not_le.mpr h
  simp [transfer_loop, h2]

theorem transfer_loop_two_chunk (length : Nat) (p q : Int) (rest : List Int)
    (hp : 0 < p) (hlt : p.toNat < length) (hlen : length < 4294967296) (hq : q ≤ 0) :
    transfer_loop length (p :: q :: rest) 0 = p.toNat := by
  rw [transfer_loop_step length 0 p (q :: rest) hp]
  have hmod : (0 + p.toNat) % 4294967296 = p.toNat := by
    rw [Nat.zero_add]
    exact Nat.mod_eq_of_lt (lt_trans hlt hlen)
  rw [hmod]
  simp [hlt, transfer_loop_nonpos length p.toNat q rest hq]

theorem transfer_loop_full (length : Nat) (p : Int) (rest : List Int)
    (hp : 0 < p) (hge : length ≤ p.toNat) (hlt : p.toNat < 4294967296) :
    transfer_loop length (p :: rest) 0 = p.toNat := by
  rw [transfer_loop_step length 0 p rest hp]
  have hmod : (0 + p.toNat) % 4294967296 = p.toNat := by
    rw [Nat.zero_add]
    exact Nat.mod_eq_of_lt hlt
  rw [hmod]
  simp [not_lt.mpr hge]

/-- C6: send_raw with a valid connected client writes the loop's accumulated
count to *bytes, succeeds exactly when at least one byte was transferred and
reports a transport error exactly when the total is zero; a zero-or-negative
progress report after a partial chunk returns success with the partial
count, and a first chunk covering the whole request returns it without
further calls. -/
theorem C6_send_raw (trace : List Int) (c : MBClientPriv) (hc : c.parent = some ())
    (length : Nat) (hlen : length < 4294967296) :
    ((mobilebackup2_send_raw trace (some c) length).2 = some (transfer_loop length trace 0) ∨
      transfer_loop length trace 0 = 0 ∧ (mobilebackup2_send_raw trace (some c) length).2 = some 0) ∧
    ((mobilebackup2_send_raw trace (some c) length).1 = MBError.success ↔
      0 < transfer_loop length trace 0) ∧
    ((mobilebackup2_send_raw trace (some c) length).1 = TransportError ↔
      transfer_loop length trace 0 = 0) ∧
    (∀ p q rest, trace = p :: q :: rest → 0 < p → p.toNat < length → q ≤ 0 →
      mobilebackup2_send_raw trace (some c) length = (MBError.success, some p.toNat)) ∧
    (∀ p rest, trace = p :: rest → 0 < p → length ≤ p.toNat → p.toNat < 4294967296 →
      mobilebackup2_send_raw trace (some c) length = (MBError.success, some p.toNat)) := by
  have hrun : mobilebackup2_send_raw trace (some c) length =
      (if 0 < transfer_loop length trace 0 then
        (MBError.success, some (transfer_loop length trace 0))
      else (MBError.muxError, some 0)) := by
    simp [mobilebackup2_send_raw, hc]
  by_cases hs : 0 < transfer_loop length trace 0
  · refine ⟨Or.inl (by rw [hrun]; simp [hs]), ?_, ?_, ?_, ?_⟩
    · rw [hrun]; simp [hs]
    · rw [hrun]
      simp only [hs, if_pos]
      constructor
      · intro h
        exact absurd h (by simp [TransportError])
      · intro h
        omega
    · intro p q rest htr hp hlt hq
      subst htr
      have hloop := transfer_loop_two_chunk length p q rest hp hlt hlen hq
      have hpt : 0 < p.toNat := by omega
      rw [hrun, hloop]
      simp [hpt]
    · intro p rest htr hp hge hlt
      subst htr
      have hloop := transfer_loop_full length p rest hp hge hlt
      have hpt : 0 < p.toNat := by omega
      rw [hrun, hloop]
      simp [hpt]
  · have hz : transfer_loop length trace 0 = 0 := Nat.eq_zero_of_not_pos hs
    refine ⟨Or.inr ⟨hz, by rw [hrun]; simp [hs]⟩, ?_, ?_, ?_, ?_⟩
    · rw [hrun]
      simp [hs, hz]
    · rw [hrun]
      simp [hs, hz, TransportError]
    · intro p q rest htr hp hlt hq
      subst htr
      have hloop := transfer_loop_two_chunk length p q rest hp hlt hlen hq
      rw [hloop] at hz
      omega
    · intro p rest htr hp hge hlt
      subst htr
      have hloop := transfer_loop_full length p rest hp hge hlt
      rw [hloop] at hz
      omega

/-- C6 witness: a partial 2-byte chunk followed by a zero-progress report on
a 5-byte request returns success with 2 bytes. -/
theorem C6_send_raw_witness :
    mobilebackup2_send_raw [2, 0] (some validClient) 5 = (MBError.success, some 2) := by
  have h := C6_send_raw [2, 0] validClient rfl 5 (by decide)
  exact h.2.2.2.1 2 0 [] rfl (by decide) (by decide) (by decide)

/-- C10: send_raw with requested length 0 (and an adapter that cannot
report positive progress for a zero-byte request) returns a transport error
with *bytes set to 0, because success requires at least one transferred
byte. -/
theorem C10_send_raw_zero_length (trace : List Int) (c : MBClientPriv)
    (hc : c.parent = some ()) (hhonest : trace.headD 0 ≤ 0) :
    mobilebackup2_send_raw trace (some c) 0 = (TransportError, some 0) := by
  have hloop : transfer_loop 0 trace 0 = 0 := by
    cases trace with
    | nil => rfl
    | cons p rest =>
      simp only [List.headD_cons] at hhonest
      exact transfer_loop_nonpos 0 0 p rest hhonest
  simp [mobilebackup2_send_raw, hc, hloop, TransportError]

/-- C10 witness: an empty progress trace (the first call reports zero) on a
zero-length request yields the transport error with zero bytes. -/
theorem C10_send_raw_zero_length_witness :
    mobilebackup2_send_raw [] (some validClient) 0 = (TransportError, some 0) :=
  C10_send_raw_zero_length [] validClient rfl (by decide)

/-- C9: receive_raw with a valid connected client always returns success;
the transport-error branch is dead because the accumulated count is
unsigned, even when the adapter reports failure on the very first call. -/
theorem C9_receive_raw_no_error (trace : List Int) (c : MBClientPriv)
    (hc : c.parent = some ()) (length : Nat) :
    (mobilebackup2_receive_raw trace (some c) length).1 = MBError.success := by
  have hrun : mobilebackup2_receive_raw trace (some c) length =
      (if 0 < transfer_loop length trace 0 then
        (MBError.success, some (transfer_loop length trace 0))
      else if transfer_loop length trace 0 = 0 then (MBError.success, some 0)
      else (MBError.muxError, some 0)) := by
    simp [mobilebackup2_receive_raw, hc]
  rw [hrun]
  rcases Nat.eq_zero_or_pos (transfer_loop length trace 0) with h | h
  · simp [h]
  · simp [h]

/-- C9 witness: the adapter failing on the very first call (negative
progress report) still yields success. -/
theorem C9_receive_raw_no_error_witness :
    (mobilebackup2_receive_raw [-1] (some validClient) 4).1 = MBError.success :=
  C9_receive_raw_no_error [-1] validClient rfl 4

/-- C8: receive_raw returns success with *bytes 0 when the adapter reports
zero progress before anything was received, and success with the partial
count when zero-or-negative progress follows a partial chunk. -/
theorem C8_receive_raw_short (trace : List Int) (c : MBClientPriv)
    (hc : c.parent = some ()) (length : Nat) (hlen : length < 4294967296) :
    (trace.headD 0 ≤ 0 →
      mobilebackup2_receive_raw trace (some c) length = (MBError.success, some 0)) ∧
    (∀ p q rest, trace = p :: q :: rest → 0 < p → p.toNat < length → q ≤ 0 →
      mobilebackup2_receive_raw trace (some c) length = (MBError.success, some p.toNat)) := by
  constructor
  · intro hhonest
    have hloop : transfer_loop length trace 0 = 0 := by
      cases trace with
      | nil => rfl
      | cons p rest =>
        simp only [List.headD_cons] at hhonest
        exact transfer_loop_nonpos length 0 p rest hhonest
    simp [mobilebackup2_receive_raw, hc, hloop]
  · intro p q rest htr hp hlt hq
    subst htr
    have hloop := transfer_loop_two_chunk length p q rest hp hlt hlen hq
    have hpt : 0 < p.toNat := by omega
    simp [mobilebackup2_receive_raw, hc, hloop, hpt]

/-- C8 witness: zero progress with nothing yet received on a 10-byte
request is a clean success with zero bytes. -/
theorem C8_receive_raw_short_witness :
    mobilebackup2_receive_raw [] (some validClient) 10 = (MBError.success, some 0) :=
  (C8_receive_raw_short [] validClient rfl 10 (by decide)).1 (by decide)

/-- Reduction of the handshake under a transport whose send succeeds and a
successful structured receive delivering a reply whose MessageName is
Response: the result is decided by the ErrorCode and ProtocolVersion fields
of the reply. -/
theorem version_exchange_response (send : PlistValue → DLError)
    (hsend : ∀ p, send p = DLError.success) (recvPlist : PlistValue)
    (c : MBClientPriv) (hc : c.parent = some ())
    (hname : plist_dict_get_item recvPlist "MessageName" = some (.string "Response")) :
    mobilebackup2_version_exchange send DLError.success recvPlist (some c) =
      (match plist_dict_get_item recvPlist "ErrorCode" with
       | none => MBError.plistError
       | some node =>
         if plist_get_node_type node != NodeType.uint then MBError.plistError
         else if plist_get_uint_val node != 0 then MBError.replyNotOk
         else
           match plist_dict_get_item recvPlist "ProtocolVersion" with
           | none => MBError.plistError
           | some node2 =>
             if plist_get_node_type node2 != NodeType.real then MBError.plistError
             else MBError.success) := by
  simp [mobilebackup2_version_exchange, internal_mobilebackup2_send_message, hc, hsend,
    internal_mobilebackup2_receive_message, hname, mobilebackup2_error, plist_get_string_val,
    helloBody, plist_get_node_type, Option.any, plist_copy, plist_dict_insert_item]

/-- Reply carrying MessageName Response and uint ErrorCode 1. -/
def replyErrorCode1 : PlistValue :=
  .dict [("MessageName", .string "Response"), ("ErrorCode", .uint 1)]

/-- Reply carrying MessageName Response and no ErrorCode field at all. -/
def replyNoErrorCode : PlistValue :=
  .dict [("MessageName", .string "Response")]

/-- Reply with no MessageName field at all. -/
def replyNoName : PlistValue :=
  .dict [("ErrorCode", .uint 0)]

/-- Reply named Goodbye instead of Response. -/
def replyGoodbye : PlistValue :=
  .dict [("MessageName", .string "Goodbye")]

/-- C1 counterexample: a Response reply with ErrorCode 1 makes the
handshake fail with ReplyMismatch (MOBILEBACKUP2_E_REPLY_NOT_OK), which is
not ProtocolError, refuting the claim that every nonzero ErrorCode fails
with ProtocolError. -/
theorem C1_error_code_counterexample :
    mobilebackup2_version_exchange sendAlwaysOk DLError.success replyErrorCode1
      (some validClient) = ReplyMismatch ∧ ReplyMismatch ≠ ProtocolError := by
  constructor
  · rfl
  · decide

/-- C1 (amended): during the handshake, a Response reply lacking a numeric
ErrorCode field fails with ProtocolError, while a present numeric ErrorCode
whose value is not zero fails with ReplyMismatch; in particular ErrorCode 1
fails with ReplyMismatch. -/
theorem C1_amended_error_code (send : PlistValue → DLError)
    (hsend : ∀ p, send p = DLError.success) (recvPlist : PlistValue)
    (c : MBClientPriv) (hc : c.parent = some ())
    (hname : plist_dict_get_item recvPlist "MessageName" = some (.string "Response")) :
    ((∀ node, plist_dict_get_item recvPlist "ErrorCode" = some node →
        plist_get_node_type node ≠ NodeType.uint) →
      mobilebackup2_version_exchange send DLError.success recvPlist (some c) = ProtocolError) ∧
    (∀ v, plist_dict_get_item recvPlist "ErrorCode" = some (.uint v) → v ≠ 0 →
      mobilebackup2_version_exchange send DLError.success recvPlist (some c) = ReplyMismatch) := by
  have hrun := version_exchange_response send hsend recvPlist c hc hname
  constructor
  · intro hnode
    rw [hrun]
    cases hec : plist_dict_get_item recvPlist "ErrorCode" with
    | none => rfl
    | some node =>
      have hne := hnode node hec
      simp [hne, ProtocolError]
  · intro v hec hv
    rw [hrun, hec]
    simp [plist_get_node_type, plist_get_uint_val, hv, ReplyMismatch]

/-- C1 witness: a Response reply with no ErrorCode fails with
ProtocolError, and the concrete ErrorCode 1 reply fails with
ReplyMismatch. -/
theorem C1_amended_error_code_witness :
    mobilebackup2_version_exchange sendAlwaysOk DLError.success replyNoErrorCode
      (some validClient) = ProtocolError ∧
    mobilebackup2_version_exchange sendAlwaysOk DLError.success replyErrorCode1
      (some validClient) = ReplyMismatch := by
  constructor
  · exact (C1_amended_error_code sendAlwaysOk (fun _ => rfl) replyNoErrorCode validClient rfl
      rfl).1 (by
        intro node h
        rw [show plist_dict_get_item replyNoErrorCode "ErrorCode" = none from rfl] at h
        cases h)
  · exact (C1_amended_error_code sendAlwaysOk (fun _ => rfl) replyErrorCode1 validClient rfl
      rfl).2 1 rfl (by decide)

/-- C2 counterexample: a reply with no MessageName field makes the
handshake fail with ProtocolError (MOBILEBACKUP2_E_PLIST_ERROR), not
ReplyMismatch, refuting the claim that the absent-name case fails with
ReplyMismatch. -/
theorem C2_missing_name_counterexample :
    mobilebackup2_version_exchange sendAlwaysOk DLError.success replyNoName
      (some validClient) = ProtocolError ∧ ProtocolError ≠ ReplyMismatch := by
  constructor
  · rfl
  · decide

/-- C2 (amended): during the handshake, a reply whose MessageName field is
absent fails with ProtocolError, and a reply whose MessageName is a string
different from Response fails with ReplyMismatch; in particular a reply
named Goodbye fails with ReplyMismatch. -/
theorem C2_amended_reply_name (send : PlistValue → DLError)
    (hsend : ∀ p, send p = DLError.success) (recvPlist : PlistValue)
    (c : MBClientPriv) (hc : c.parent = some ()) :
    (plist_dict_get_item recvPlist "MessageName" = none →
      mobilebackup2_version_exchange send DLError.success recvPlist (some c) = ProtocolError) ∧
    (∀ s, plist_dict_get_item recvPlist "MessageName" = some (.string s) → s ≠ "Response" →
      mobilebackup2_version_exchange send DLError.success recvPlist (some c) = ReplyMismatch) := by
  constructor
  · intro hname
    simp [mobilebackup2_version_exchange, internal_mobilebackup2_send_message, hc, hsend,
      internal_mobilebackup2_receive_message, hname, mobilebackup2_error, helloBody,
      plist_get_node_type, Option.any, plist_copy, plist_dict_insert_item, ProtocolError]
  · intro s hname hs
    simp [mobilebackup2_version_exchange, internal_mobilebackup2_send_message, hc, hsend,
      internal_mobilebackup2_receive_message, hname, mobilebackup2_error, helloBody,
      plist_get_node_type, plist_get_string_val, hs, Option.any, plist_copy,
      plist_dict_insert_item, ReplyMismatch]

/-- C2 witness: the concrete Goodbye reply fails with ReplyMismatch. -/
theorem C2_amended_reply_name_witness :
    mobilebackup2_version_exchange sendAlwaysOk DLError.success replyGoodbye
      (some validClient) = ReplyMismatch :=
  (C2_amended_reply_name sendAlwaysOk (fun _ => rfl) replyGoodbye validClient rfl).2
    "Goodbye" rfl (by decide)

/-- C3: with valid arguments and a NULL *client on entry, connect leaves
*client untouched and releases every acquired resource on each failure path
— returning the mapped open error before anything is acquired, and on
handshake failure releasing both the adapter handle and the client record —
while on full success *client receives a record owning the adapter. -/
theorem C3_client_new_cleanup (openErr handshakeErr freeErr : DLError)
    (device : Bool) (hd : device = true) (port : Nat) (hp : port ≠ 0)
    (cp : Bool) (hcp : cp = true) (clientIn : Option MBClientPriv) (hin : clientIn = none) :
    (openErr ≠ DLError.success →
      mobilebackup2_client_new openErr handshakeErr freeErr device port cp clientIn =
        ⟨mobilebackup2_error openErr, clientIn, false, false, false⟩) ∧
    (openErr = DLError.success → handshakeErr ≠ DLError.success →
      mobilebackup2_client_new openErr handshakeErr freeErr device port cp clientIn =
        ⟨mobilebackup2_error handshakeErr, clientIn, true, true, true⟩) ∧
    (openErr = DLError.success → handshakeErr = DLError.success →
      mobilebackup2_client_new openErr handshakeErr freeErr device port cp clientIn =
        ⟨MBError.success, some ⟨some ()⟩, true, false, false⟩) := by
  subst hd hcp hin
  have hport : (port == 0) = false := by
    simp [hp]
  refine ⟨?_, ?_, ?_⟩
  · intro ho
    have h1 : (mobilebackup2_error openErr != MBError.success) = true := by
      simp [bne_iff_ne, mobilebackup2_error_success_iff, ho]
    simp [mobilebackup2_client_new, hport, h1]
  · intro ho hh
    subst ho
    have h0 : mobilebackup2_error DLError.success = MBError.success := rfl
    have h2 : (mobilebackup2_error handshakeErr != MBError.success) = true := by
      simp [bne_iff_ne, mobilebackup2_error_success_iff, hh]
    simp [mobilebackup2_client_new, hport, h0, h2, mobilebackup2_client_free]
  · intro ho hh
    subst ho
    subst hh
    simp [mobilebackup2_client_new, hport, mobilebackup2_error]

/-- C3 witness: the adapter opens, the handshake fails with a mux error;
the mapped error comes back, *client stays NULL, and both the adapter
handle and the client record are released. -/
theorem C3_client_new_cleanup_witness :
    mobilebackup2_client_new DLError.success DLError.muxError DLError.success true 1 true none =
      ⟨MBError.muxError, none, true, true, true⟩ := by
  have h := C3_client_new_cleanup DLError.success DLError.muxError DLError.success
    true rfl 1 (by decide) true rfl none rfl
  exact h.2.1 rfl (by decide)

end MobileBackup2

